import Mathlib

/-!
Verification development for the MediConnect credential-verification pipeline.

The model embeds the two pipeline entry points of the repository:
* `legacy_lambdas/DoctorDiplomaScanner` — `diploma_scanner.scan_diploma` and
  `handler.lambda_handler` (the document / diploma flow);
* `legacy_lambdas/verify-identity/lambda_function.py` — `lambda_handler`
  (the biometric identity flow).

External collaborators (Textract, Rekognition, S3, DynamoDB, SNS, BigQuery)
are modelled as oracle inputs: the value or failure each call would return is
an explicit argument, and every outbound call the handler issues is recorded
in an action trace, so that claims about ordering and about which calls are
(not) made become statements about the trace.  The subject-record store is a
total map that is threaded through the handler, applying exactly the
attribute writes that the DynamoDB `update_item` calls carry.
-/

namespace Mediconnect

/-! ## Document content validation: `diploma_scanner.py`

`scan_diploma` joins the extracted LINE blocks with single spaces and searches
each of ten keywords with the Python regex `\b<kw>\b` under `re.IGNORECASE`.
We model the text as `List Char`.  For a keyword made solely of word
characters, `\b` on each side of it is exactly the condition that the
adjacent text character, when it exists, is not a word character.  Which
characters count as word characters (`\w`, hence `\b`) and when two
characters match under `re.IGNORECASE` is decided by the regex engine's
character tables — Python3's `re` resolves both through its Unicode
database, a library external to this repository — so the engine is an
explicit parameter of the matcher, and the matcher theorems hold for every
table, in particular the engine's true Unicode one.  Concrete evaluations
in this development use the ASCII tables, on whose inputs (pure-ASCII text)
the ASCII and Unicode tables agree. -/

/-- The regex engine's character semantics: `wordChar` classifies word
characters (`\w`); `ciEqv c k` says text character `c` matches pattern
character `k` under `re.IGNORECASE`. -/
structure RegexEngine where
  wordChar : Char → Bool
  ciEqv : Char → Char → Bool

/-- ASCII word character `[A-Za-z0-9_]`: the ASCII fragment of `\w`. -/
def isWordChar (c : Char) : Bool := c.isAlphanum || c = '_'

/-- The ASCII table instance of the engine: ASCII word characters and ASCII
lowercase folding.  It agrees with Python's Unicode tables on ASCII text. -/
def asciiEngine : RegexEngine :=
  { wordChar := isWordChar, ciEqv := fun c k => c.toLower = k.toLower }

/-- Case-insensitive prefix match: if `kw` matches the front of `text`
character by character under the engine's equivalence, return the remaining
text after the match. -/
def ciMatchFront (E : RegexEngine) : List Char → List Char → Option (List Char)
  | [], rest => some rest
  | _ :: _, [] => none
  | k :: ks, c :: cs => if E.ciEqv c k then ciMatchFront E ks cs else none

/-- Word-boundary check around a candidate match: the character before the
match (`prev`, `none` at the start of the text) and the character after it
(head of `rest`, absent at the end) must not be word characters. -/
def boundaryOk (E : RegexEngine) (prev : Option Char) (rest : List Char) : Bool :=
  (match prev with | none => true | some c => !E.wordChar c) &&
  (match rest with | [] => true | c :: _ => !E.wordChar c)

/-- Does `kw` match at the current position (with `prev` the preceding
character) as a whole word? -/
def hereMatch (E : RegexEngine) (kw : List Char) (prev : Option Char)
    (text : List Char) : Bool :=
  match ciMatchFront E kw text with
  | some rest => boundaryOk E prev rest
  | none => false

/-- Scan `text` left to right for a whole-word, case-insensitive occurrence of
`kw`; `prev` is the character immediately before the current position. -/
def wbSearchAux (E : RegexEngine) (kw : List Char) : Option Char → List Char → Bool
  | prev, [] => hereMatch E kw prev []
  | prev, c :: cs => hereMatch E kw prev (c :: cs) || wbSearchAux E kw (some c) cs

/-- `re.search(r'\b' + re.escape(kw) + r'\b', text, re.IGNORECASE)` as a
boolean, for keywords made of word characters, under engine `E`. -/
def wordSearch (E : RegexEngine) (kw text : String) : Bool :=
  wbSearchAux E kw.toList none text.toList

/-- The fixed keyword list of `diploma_scanner.py` (`required_keywords`). -/
def required_keywords : List String :=
  ["Doctor", "Medicine", "License", "Board", "MD", "Surgeon", "Medical",
   "Surgery", "Degree", "Diploma"]

/-- The dictionary `scan_diploma` returns: the error return carries
`status`/`message`/`verification_passed` only; the success return carries
`status`/`verification_passed`/`confidence_matches`/`extracted_text_snippet`. -/
structure ScanResult where
  status : String
  message : Option String
  verification_passed : Bool
  confidence_matches : Option (List String)
  extracted_text_snippet : Option String
  deriving Repr, DecidableEq

/-- The pure validation core of `scan_diploma` applied to the joined text,
under engine `E`: keyword loop, `match_count >= 1` decision, snippet of the
first 200 characters. -/
def validateText (E : RegexEngine) (full_text : String) : ScanResult :=
  let matches_found := required_keywords.filter (fun kw => wordSearch E kw full_text)
  { status := "success"
    message := none
    verification_passed := decide (matches_found.length ≥ 1)
    confidence_matches := some matches_found
    extracted_text_snippet := some (full_text.take 200) }

/-- Outcome of the `textract.detect_document_text` call: either the raised
exception's text or the extracted LINE blocks. -/
inductive ExtractionResult where
  | err (msg : String)
  | ok (lines : List String)
  deriving Repr, DecidableEq

/-- `scan_diploma`, as a function of the Textract outcome: an exception is
caught and reported as `status="error"` with `verification_passed=False`;
otherwise the lines are joined with spaces and validated.  For concrete
evaluation this instance fixes the ASCII tables; every handler-level
theorem below treats the scan's boolean outcome opaquely, so none depends
on the table choice, and the concrete inputs evaluated are pure ASCII,
where the ASCII and Unicode tables agree. -/
def scan_diploma : ExtractionResult → ScanResult
  | .err msg =>
      { status := "error", message := some msg, verification_passed := false
        confidence_matches := none, extracted_text_snippet := none }
  | .ok lines => validateText asciiEngine (String.intercalate " " lines)

/-! ### Specification-side characterisation of whole-word occurrence

`OccursWholeWord E kw text` says: `text` splits as `pre ++ mid ++ post`
where `mid` matches `kw` character by character under the engine's
case-insensitive equivalence and the characters adjacent to `mid` (when
they exist) are not word characters.  This is written from the spec's words
("case-insensitive whole-word search ... a keyword must not match as a
substring of a longer token") and proved equivalent to the scanner, for
every engine. -/

/-- `mid` matches `kw` pointwise under the engine's case-insensitive
character equivalence (in particular they have the same length). -/
def CiEq (E : RegexEngine) : List Char → List Char → Prop :=
  List.Forall₂ (fun k c => E.ciEqv c k = true)

/-- The last character before the current position: the last of `pre` if
`pre` is nonempty, else the ambient previous character `prev`. -/
def lastBefore (prev : Option Char) : List Char → Option Char
  | [] => prev
  | c :: cs => lastBefore (some c) cs

/-- Whole-word occurrence of `kw` in `text` given the ambient character
`prev` standing immediately before `text`. -/
def OccursFrom (E : RegexEngine) (kw : List Char) (prev : Option Char)
    (text : List Char) : Prop :=
  ∃ pre mid post, text = pre ++ mid ++ post ∧ CiEq E kw mid ∧
    (∀ c, lastBefore prev pre = some c → E.wordChar c = false) ∧
    (∀ c, post.head? = some c → E.wordChar c = false)

/-- Whole-word, case-insensitive occurrence of `kw` in `text` under `E`. -/
def OccursWholeWord (E : RegexEngine) (kw text : String) : Prop :=
  OccursFrom E kw.toList none text.toList

theorem ciMatchFront_eq_some {E : RegexEngine} {kw text rest : List Char} :
    ciMatchFront E kw text = some rest ↔
      ∃ mid, text = mid ++ rest ∧ CiEq E kw mid := by
  induction kw generalizing text with
  | nil =>
    constructor
    · intro h
      simp only [ciMatchFront, Option.some.injEq] at h
      subst h
      exact ⟨[], rfl, List.Forall₂.nil⟩
    · rintro ⟨mid, hsplit, hci⟩
      cases hci
      simp only [List.nil_append] at hsplit
      simp [ciMatchFront, hsplit]
  | cons k ks ih =>
    cases text with
    | nil =>
      constructor
      · intro h
        simp [ciMatchFront] at h
      · rintro ⟨mid, hsplit, hci⟩
        cases hci with
        | cons h1 h2 => simp at hsplit
    | cons c cs =>
      simp only [ciMatchFront]
      by_cases hc : E.ciEqv c k = true
      · rw [if_pos hc, ih]
        constructor
        · rintro ⟨mid, hsplit, hci⟩
          exact ⟨c :: mid, by simp [hsplit], List.Forall₂.cons hc hci⟩
        · rintro ⟨mid, hsplit, hci⟩
          cases hci with
          | cons h1 h2 =>
            simp only [List.cons_append, List.cons.injEq] at hsplit
            exact ⟨_, hsplit.2, h2⟩
      · rw [if_neg hc]
        constructor
        · intro h
          simp at h
        · rintro ⟨mid, hsplit, hci⟩
          cases hci with
          | cons h1 h2 =>
            simp only [List.cons_append, List.cons.injEq] at hsplit
            exact absurd (by rw [hsplit.1]; exact h1) hc

theorem hereMatch_iff (E : RegexEngine) (kw : List Char) (prev : Option Char)
    (text : List Char) :
    hereMatch E kw prev text = true ↔
      ∃ mid post, text = mid ++ post ∧ CiEq E kw mid ∧
        (∀ c, prev = some c → E.wordChar c = false) ∧
        (∀ c, post.head? = some c → E.wordChar c = false) := by
  unfold hereMatch
  constructor
  · intro h
    cases hp : ciMatchFront E kw text with
    | none => rw [hp] at h; exact absurd h (by simp)
    | some rest =>
      rw [hp] at h
      obtain ⟨mid, hsplit, hci⟩ := ciMatchFront_eq_some.mp hp
      refine ⟨mid, rest, hsplit, hci, ?_, ?_⟩
      · intro c hc
        subst hc
        simp only [boundaryOk, Bool.and_eq_true] at h
        simpa using h.1
      · intro c hc
        simp only [boundaryOk, Bool.and_eq_true] at h
        cases rest with
        | nil => exact absurd hc (by simp)
        | cons r rs =>
          simp at hc
          subst hc
          simpa using h.2
  · rintro ⟨mid, post, hsplit, hci, hl, hr⟩
    have hp : ciMatchFront E kw text = some post :=
      ciMatchFront_eq_some.mpr ⟨mid, hsplit, hci⟩
    rw [hp]
    simp only [boundaryOk, Bool.and_eq_true]
    constructor
    · cases prev with
      | none => simp
      | some c => simpa using hl c rfl
    · cases post with
      | nil => simp
      | cons r rs => simpa using hr r rfl

theorem wbSearchAux_iff (E : RegexEngine) (kw : List Char) (prev : Option Char)
    (text : List Char) :
    wbSearchAux E kw prev text = true ↔ OccursFrom E kw prev text := by
  induction text generalizing prev with
  | nil =>
    simp only [wbSearchAux, OccursFrom]
    rw [hereMatch_iff]
    constructor
    · rintro ⟨mid, post, hsplit, hci, hl, hr⟩
      exact ⟨[], mid, post, by simpa using hsplit, hci, hl, hr⟩
    · rintro ⟨pre, mid, post, hsplit, hci, hl, hr⟩
      have hpre : pre = [] := by
        cases pre with
        | nil => rfl
        | cons p ps => simp at hsplit
      subst hpre
      exact ⟨mid, post, by simpa using hsplit, hci, hl, hr⟩
  | cons c cs ih =>
    simp only [wbSearchAux, Bool.or_eq_true]
    rw [hereMatch_iff, ih]
    constructor
    · rintro (⟨mid, post, hsplit, hci, hl, hr⟩ | ⟨pre, mid, post, hsplit, hci, hl, hr⟩)
      · exact ⟨[], mid, post, hsplit, hci, hl, hr⟩
      · exact ⟨c :: pre, mid, post, by simp [hsplit], hci, hl, hr⟩
    · rintro ⟨pre, mid, post, hsplit, hci, hl, hr⟩
      cases pre with
      | nil =>
        left
        exact ⟨mid, post, by simpa using hsplit, hci, hl, hr⟩
      | cons p ps =>
        right
        simp only [List.cons_append, List.cons.injEq] at hsplit
        obtain ⟨hpc, hcs⟩ := hsplit
        subst hpc
        exact ⟨ps, mid, post, hcs, hci, hl, hr⟩

theorem wordSearch_iff (E : RegexEngine) (kw text : String) :
    wordSearch E kw text = true ↔ OccursWholeWord E kw text :=
  wbSearchAux_iff E kw.toList none text.toList

/-! ## Outbound calls and the subject-record store

Every outbound call either handler issues is recorded as an `Action`.
The record store is a total map `table → id → record`; a DynamoDB
`update_item` that succeeds applies exactly the attribute writes its
update expression carries (upsert semantics), leaving every other
attribute and every other item unchanged. -/

inductive Action where
  /-- `record_doctor_event(doctor_id, "diploma_verification", status)` (BigQuery). -/
  | bigquery (doctorId eventType status : String)
  /-- Diploma-side `table.update_item`: sets `isDiplomaAutoVerified`,
  `diplomaUrl`, `verificationStatus`. -/
  | ddbUpdateDiploma (table doctorId : String) (isDiplomaAutoVerified : Bool)
      (diplomaUrl verificationStatus : String)
  /-- `sns.publish(TopicArn=..., Message=..., Subject=...)`. -/
  | snsPublish (topicArn message subject : String)
  /-- `s3.put_object(Bucket=..., Key=..., Body=..., ContentType='image/jpeg')`. -/
  | s3Put (bucket key body : String)
  /-- `s3.put_object_tagging` with the `auto-delete` tag. -/
  | s3Tag (bucket key : String)
  /-- `rekognition.compare_faces` against the reference key. -/
  | rekognitionCompare (bucket refKey : String)
  /-- `s3.generate_presigned_url('get_object', ...)`. -/
  | s3Presign (bucket key : String) (ttl : Nat)
  /-- Identity-side `table.update_item`: sets `avatar`, `isIdentityVerified`,
  `verificationStatus`. -/
  | ddbUpdateIdentity (table keyField id avatar : String) (isIdentityVerified : Bool)
      (verificationStatus : String)
  deriving Repr, DecidableEq

/-- The attributes of a subject record the pipeline ever reads or writes;
`none` = attribute absent. -/
structure SubjectRecord where
  isDiplomaAutoVerified : Option Bool := none
  diplomaUrl : Option String := none
  verificationStatus : Option String := none
  avatar : Option String := none
  isIdentityVerified : Option Bool := none
  deriving Repr, DecidableEq

/-- The DynamoDB state: `table name → primary-key value → record`. -/
def RecordStore : Type := String → String → SubjectRecord

/-- Effect of the diploma-side `update_item` on the store. -/
def applyDiplomaUpdate (store : RecordStore) (table doctorId : String)
    (v : Bool) (u s : String) : RecordStore :=
  fun t i =>
    if t = table ∧ i = doctorId then
      { store t i with
          isDiplomaAutoVerified := some v
          diplomaUrl := some u
          verificationStatus := some s }
    else store t i

/-- Effect of the identity-side `update_item` on the store. -/
def applyIdentityUpdate (store : RecordStore) (table id : String)
    (avatar : String) (v : Bool) (s : String) : RecordStore :=
  fun t i =>
    if t = table ∧ i = id then
      { store t i with
          avatar := some avatar
          isIdentityVerified := some v
          verificationStatus := some s }
    else store t i

/-! ## Diploma handler: `DoctorDiplomaScanner/handler.py` -/

def TABLE_NAME : String := "mediconnect-doctors"

def SNS_TOPIC_ARN : String := "arn:aws:sns:us-east-1:950110266426:mediconnect-ops-alerts"

/-- The storage-upload event: the `(bucket, key)` pairs under `Records`.
An event whose `Records[0].s3` access raises (no records) yields the 400
"Invalid Event" return. -/
structure DiplomaEvent where
  records : List (String × String)

/-- Oracle outcomes of the external calls one diploma run makes. -/
structure DiplomaEnv where
  /-- Outcome of `textract.detect_document_text`. -/
  extraction : ExtractionResult
  /-- Does `table.update_item` return without raising? -/
  dbOk : Bool
  /-- `str(e)` of the exception when `update_item` raises. -/
  dbErr : String
  /-- Does `sns.publish` return without raising? -/
  snsOk : Bool
  /-- `str(e)` of the exception when `sns.publish` raises. -/
  snsErr : String

/-- Python `str.split(sep)` for a single-character separator: the maximal
runs between separator occurrences, keeping empty runs (so `"".split('/')`
is `[""]` and `"a//b".split('/')` is `["a","","b"]`). -/
def splitOnChar (sep : Char) : List Char → List (List Char)
  | [] => [[]]
  | c :: rest =>
    if c = sep then [] :: splitOnChar sep rest
    else
      match splitOnChar sep rest with
      | [] => [[c]]
      | g :: gs => (c :: g) :: gs

/-- Doctor-id extraction from the object key (`s3_key.split('/')`). -/
def extractDoctorId (s3_key : String) : String :=
  let parts := (splitOnChar '/' s3_key.toList).map List.asString
  if 2 < parts.length ∧ parts.getD 1 "" = "doctors" then parts.getD 2 ""
  else if 1 < parts.length then parts.getD 1 ""
  else "unknown_doc"

/-- The JSON body of the diploma handler's 200 return. -/
structure DiplomaBody where
  message : String
  doctor_id : String
  scan_passed : Bool
  db_status : String
  deriving Repr, DecidableEq

/-- The diploma handler's return value. -/
inductive DiplomaResponse where
  /-- `{"statusCode": 400, "body": "Invalid Event"}`. -/
  | invalidEvent
  /-- `{"statusCode": 200, "body": json.dumps({...})}`. -/
  | processed (body : DiplomaBody)
  deriving Repr, DecidableEq

def DiplomaResponse.statusCode : DiplomaResponse → Nat
  | .invalidEvent => 400
  | .processed _ => 200

/-- Result of one diploma run: response, trace of issued calls, final store. -/
structure DiplomaOutcome where
  response : DiplomaResponse
  trace : List Action
  store : RecordStore

/-- `lambda_handler` of `DoctorDiplomaScanner/handler.py`. -/
def diplomaHandler (event : DiplomaEvent) (env : DiplomaEnv)
    (store : RecordStore) : DiplomaOutcome :=
  match event.records with
  | [] => { response := .invalidEvent, trace := [], store := store }
  | (s3_bucket, s3_key) :: _ =>
    let scan_result := scan_diploma env.extraction
    let doctor_id := extractDoctorId s3_key
    let scan_passed := scan_result.verification_passed
    let scan_status := if scan_passed then "passed" else "failed"
    -- `record_doctor_event` is attempted; a raise is caught and only printed.
    let bq := Action.bigquery doctor_id "diploma_verification" scan_status
    let diplomaUrl := "s3://" ++ s3_bucket ++ "/" ++ s3_key
    if scan_passed then
      let upd := Action.ddbUpdateDiploma TABLE_NAME doctor_id true diplomaUrl
        "PENDING_REVIEW"
      if env.dbOk then
        let store' := applyDiplomaUpdate store TABLE_NAME doctor_id true diplomaUrl
          "PENDING_REVIEW"
        let alert := Action.snsPublish SNS_TOPIC_ARN
          ("ACTION REQUIRED: Doctor " ++ doctor_id ++
            " has uploaded a diploma. AI Check Passed. Please review and manually approve.")
          "New Doctor Credential Review"
        let db_message :=
          if env.snsOk then "DynamoDB Updated & Admin Alerted"
          else "DynamoDB Update Failed: " ++ env.snsErr
        { response := .processed
            ⟨"Processed", doctor_id, scan_passed, db_message⟩
          trace := [bq, upd, alert], store := store' }
      else
        { response := .processed
            ⟨"Processed", doctor_id, scan_passed,
              "DynamoDB Update Failed: " ++ env.dbErr⟩
          trace := [bq, upd], store := store }
    else
      let upd := Action.ddbUpdateDiploma TABLE_NAME doctor_id false diplomaUrl
        "REJECTED_AUTO"
      if env.dbOk then
        { response := .processed
            ⟨"Processed", doctor_id, scan_passed, "DynamoDB Updated (Auto-Rejected)"⟩
          trace := [bq, upd]
          store := applyDiplomaUpdate store TABLE_NAME doctor_id false diplomaUrl
            "REJECTED_AUTO" }
      else
        { response := .processed
            ⟨"Processed", doctor_id, scan_passed,
              "DynamoDB Update Failed: " ++ env.dbErr⟩
          trace := [bq, upd], store := store }

/-! ## Identity handler: `verify-identity/lambda_function.py` -/

def BUCKET_NAME : String := "mediconnect-identity-verification"

/-- The parsed JSON request body plus the HTTP method; `none` = key absent. -/
structure IdRequest where
  httpMethod : String
  userId : Option String
  role : Option String
  selfieImage : Option String
  idImage : Option String

/-- Role normalisation (lines 33-35): `body.get('role', 'patient')`, then
`'doctor' if raw_role == 'provider' else raw_role`. -/
def effectiveRole (role : Option String) : String :=
  let raw_role := role.getD "patient"
  if raw_role = "provider" then "doctor" else raw_role

/-- Table selection (line 38). -/
def roleTable (user_role : String) : String :=
  if user_role = "doctor" then "mediconnect-doctors" else "mediconnect-patients"

/-- Primary-key field selection (line 39). -/
def roleKeyField (user_role : String) : String :=
  if user_role = "doctor" then "doctorId" else "patientId"

/-- The presigned GET URL `generate_presigned_url` constructs for a key; it
is a URL over the key, never equal to the bare key itself. -/
def presignURL (bucket key : String) (ttl : Nat) : String :=
  "https://" ++ bucket ++ ".s3.amazonaws.com/" ++ key ++ "?X-Amz-Expires=" ++ toString ttl

/-- Oracle outcomes of the library/external calls one identity run makes.
`b64` stands for `base64.b64decode`: `none` when the call raises
(malformed input), otherwise the decoded bytes (modelled opaquely). -/
structure IdentityEnv where
  b64 : String → Option String
  /-- Do `put_object`+`put_object_tagging` of the ID card succeed? -/
  s3IdPutOk : Bool
  /-- Similarity of each face pair Rekognition finds for this
  selfie/reference pair (before the `SimilarityThreshold=80` filter the
  service applies). -/
  sims : List ℚ
  /-- `some msg`: `compare_faces` raises an exception other than
  `InvalidS3ObjectException`. -/
  rekogFault : Option String
  /-- Does `put_object` of the verified selfie succeed? -/
  s3SelfiePutOk : Bool
  /-- Does the identity-side `update_item` return without raising? -/
  dbOk : Bool
  /-- `str(e)` when `update_item` raises. -/
  dbErr : String

/-- The JSON body of the identity handler's 200 return. -/
structure IdentityBody where
  verified : Bool
  confidence : ℚ
  message : String
  photoUrl : Option String
  deriving Repr, DecidableEq

/-- The identity handler's return value. -/
inductive IdentityResponse where
  /-- The empty-body 200 answer to the OPTIONS preflight. -/
  | empty200
  /-- A 400/404/500 return whose body is a JSON-encoded string. -/
  | err (statusCode : Nat) (body : String)
  /-- The structured 200 return. -/
  | success (body : IdentityBody)
  deriving Repr, DecidableEq

def IdentityResponse.statusCode : IdentityResponse → Nat
  | .empty200 => 200
  | .err c _ => c
  | .success _ => 200

/-- Result of one identity run: response, trace of issued calls, final set
of S3 keys in the identity bucket, final record store. -/
structure IdentityOutcome where
  response : IdentityResponse
  trace : List Action
  s3Keys : List String
  store : RecordStore

/-- `f"Identity Verified. Confidence: {confidence:.2f}%"`; the two-decimal
number formatting itself is not modelled further. -/
def verifiedMessage (confidence : ℚ) : String :=
  "Identity Verified. Confidence: " ++ toString confidence ++ "%"

/-- Steps 4-5 of the handler (Rekognition comparison onwards), reached once
the request fields are validated and the optional ID card is stored. -/
def identityCompare (env : IdentityEnv) (user_role user_id : String)
    (selfie_bytes : String) (preTrace : List Action) (s3Keys : List String)
    (store : RecordStore) : IdentityOutcome :=
  let id_card_key := user_role ++ "/" ++ user_id ++ "/id_card.jpg"
  let cmp := Action.rekognitionCompare BUCKET_NAME id_card_key
  if id_card_key ∈ s3Keys then
    match env.rekogFault with
    | some _ =>
      -- caught generic Rekognition failure: fall through unverified
      { response := .success
          ⟨false, 0, "Face comparison failed. Ensure images are clear.", none⟩
        trace := preTrace ++ [cmp], s3Keys := s3Keys, store := store }
    | none =>
      match env.sims.filter (fun s => (80 : ℚ) ≤ s) with
      | [] =>
        { response := .success
            ⟨false, 0, "Face does not match the provided ID card.", none⟩
          trace := preTrace ++ [cmp], s3Keys := s3Keys, store := store }
      | confidence :: _ =>
        -- verified: persist the selfie, presign a URL, update the record
        let selfie_key := user_role ++ "/" ++ user_id ++ "/selfie_verified.jpg"
        let put := Action.s3Put BUCKET_NAME selfie_key selfie_bytes
        if env.s3SelfiePutOk then
          let url := presignURL BUCKET_NAME selfie_key 3600
          let sign := Action.s3Presign BUCKET_NAME selfie_key 3600
          let status := if user_role = "doctor" then "PENDING_REVIEW" else "VERIFIED"
          let upd := Action.ddbUpdateIdentity (roleTable user_role)
            (roleKeyField user_role) user_id selfie_key true status
          let store' :=
            if env.dbOk then
              applyIdentityUpdate store (roleTable user_role) user_id selfie_key
                true status
            else store
          { response := .success ⟨true, confidence, verifiedMessage confidence, some url⟩
            trace := preTrace ++ [cmp, put, sign, upd]
            s3Keys := selfie_key :: s3Keys, store := store' }
        else
          -- the selfie put_object is outside any inner try: global 500
          { response := .err 500 ("Server Error: " ++ "S3 put failed")
            trace := preTrace ++ [cmp, put], s3Keys := s3Keys, store := store }
  else
    -- InvalidS3ObjectException: the reference image is not in the bucket
    { response := .err 404 "ID Document missing. Please ensure ID is uploaded."
      trace := preTrace ++ [cmp], s3Keys := s3Keys, store := store }

/-- `lambda_handler` of `verify-identity/lambda_function.py`. -/
def identityHandler (req : IdRequest) (env : IdentityEnv)
    (s3Keys : List String) (store : RecordStore) : IdentityOutcome :=
  if req.httpMethod = "OPTIONS" then
    { response := .empty200, trace := [], s3Keys := s3Keys, store := store }
  else if req.userId.getD "" = "" then
    -- `if not user_id:` — absent or empty
    { response := .err 400 "Missing userId", trace := [], s3Keys := s3Keys
      store := store }
  else
    let user_id := req.userId.getD ""
    let user_role := effectiveRole req.role
    match req.selfieImage with
    | none =>
      { response := .err 400 "No selfieImage provided", trace := [], s3Keys := s3Keys
        store := store }
    | some selfie_b64 =>
      match env.b64 selfie_b64 with
      | none =>
        { response := .err 400 "Invalid Selfie Base64", trace := [], s3Keys := s3Keys
          store := store }
      | some selfie_bytes =>
        let id_card_key := user_role ++ "/" ++ user_id ++ "/id_card.jpg"
        -- `if 'idImage' in body and body['idImage']:` — present and truthy
        if req.idImage.getD "" ≠ "" then
          match env.b64 (req.idImage.getD "") with
          | none =>
            -- b64decode raises inside the upload try-block: 500
            { response := .err 500 "Failed to save ID card to S3.", trace := []
              s3Keys := s3Keys, store := store }
          | some id_bytes =>
            let put := Action.s3Put BUCKET_NAME id_card_key id_bytes
            if env.s3IdPutOk then
              identityCompare env user_role user_id selfie_bytes
                [put, Action.s3Tag BUCKET_NAME id_card_key]
                (id_card_key :: s3Keys) store
            else
              { response := .err 500 "Failed to save ID card to S3."
                trace := [put], s3Keys := s3Keys, store := store }
        else
          identityCompare env user_role user_id selfie_bytes [] s3Keys store

/-! ## Spec-side notions used by the claims -/

/-- The tier of a verification status in the spec's reconciliation order
{UNVERIFIED} < {REJECTED_AUTO, PENDING_REVIEW} < {VERIFIED, OFFICER_APPROVED}. -/
def statusTier (s : String) : Nat :=
  if s = "REJECTED_AUTO" ∨ s = "PENDING_REVIEW" then 1
  else if s = "VERIFIED" ∨ s = "OFFICER_APPROVED" then 2
  else 0

/-- Tier of a possibly-absent status attribute (absent = UNVERIFIED tier). -/
def recordTier : Option String → Nat
  | none => 0
  | some s => statusTier s

/-- A store with no attributes set on any record. -/
def emptyStore : RecordStore := fun _ _ => {}

/-- A store whose every record already carries OFFICER_APPROVED status. -/
def approvedStore : RecordStore :=
  fun _ _ => { verificationStatus := some "OFFICER_APPROVED" }

theorem statusTier_le_two (s : String) : statusTier s ≤ 2 := by
  unfold statusTier
  split
  · omega
  · split <;> omega

theorem recordTier_le_two (s : Option String) : recordTier s ≤ 2 := by
  cases s with
  | none => exact Nat.zero_le _
  | some s => exact statusTier_le_two s

theorem presignURL_ne_key (b k : String) (ttl : Nat) : presignURL b k ttl ≠ k := by
  intro h
  have hlen := congrArg String.length h
  simp only [presignURL, String.length_append] at hlen
  have h1 : ("https://" : String).length = 8 := rfl
  have h2 : (".s3.amazonaws.com/" : String).length = 18 := rfl
  have h3 : ("?X-Amz-Expires=" : String).length = 15 := rfl
  rw [h1, h2, h3] at hlen
  omega

/-! ## Claim theorems -/

/-- C3: for every regex-engine character table (word-character predicate
and case-insensitive character equivalence — the program's is Python's
Unicode table, external to this repository) and every input text, the
document-content validator passes exactly when at least one of the ten
configured keywords occurs in the text as a case-insensitive whole word
under that table (substring-only occurrences do not count); the evidence
list is exactly the matched keywords, in keyword-declaration order (a
sublist of the keyword list), and the diagnostic snippet is the first 200
characters of the full text. -/
theorem C3_content_validator (E : RegexEngine) (text : String) :
    required_keywords.length = 10 ∧
    ((validateText E text).verification_passed = true ↔
      ∃ kw ∈ required_keywords, OccursWholeWord E kw text) ∧
    (∃ evidence, (validateText E text).confidence_matches = some evidence ∧
      evidence.Sublist required_keywords ∧
      ∀ kw, kw ∈ evidence ↔ kw ∈ required_keywords ∧ OccursWholeWord E kw text) ∧
    (validateText E text).extracted_text_snippet = some (text.take 200) := by
  refine ⟨rfl, ?_, ?_, rfl⟩
  · show decide (1 ≤ (required_keywords.filter (fun kw => wordSearch E kw text)).length)
        = true ↔ _
    rw [decide_eq_true_iff]
    constructor
    · intro h
      cases hf : required_keywords.filter (fun kw => wordSearch E kw text) with
      | nil => rw [hf] at h; simp at h
      | cons a as =>
        have ha : a ∈ required_keywords.filter (fun kw => wordSearch E kw text) := by
          rw [hf]; exact List.mem_cons_self a as
        rw [List.mem_filter] at ha
        exact ⟨a, ha.1, (wordSearch_iff E a text).mp ha.2⟩
    · rintro ⟨kw, hmem, hocc⟩
      have : kw ∈ required_keywords.filter (fun kw => wordSearch E kw text) :=
        List.mem_filter.mpr ⟨hmem, (wordSearch_iff E kw text).mpr hocc⟩
      have := List.length_pos_of_mem this
      omega
  · refine ⟨required_keywords.filter (fun kw => wordSearch E kw text), rfl,
      List.filter_sublist _, ?_⟩
    intro kw
    rw [List.mem_filter]
    exact and_congr_right fun _ => wordSearch_iff E kw text

/-- C10: a missing role field is silently defaulted to 'patient' (the run is
identical to one with an explicit 'patient' role, never a rejection), the
role 'provider' is normalised to 'doctor', and any other unrecognised role
string is routed to the patient record table and patient key field. -/
theorem C10_role_normalisation :
    effectiveRole none = "patient" ∧
    effectiveRole (some "provider") = "doctor" ∧
    (∀ r, r ≠ "provider" → r ≠ "doctor" →
      roleTable (effectiveRole (some r)) = "mediconnect-patients" ∧
      roleKeyField (effectiveRole (some r)) = "patientId") ∧
    (∀ m u s i env keys store,
      identityHandler ⟨m, u, none, s, i⟩ env keys store =
        identityHandler ⟨m, u, some "patient", s, i⟩ env keys store) := by
  refine ⟨rfl, rfl, ?_, ?_⟩
  · intro r h1 h2
    unfold effectiveRole roleTable roleKeyField
    simp only [Option.getD_some]
    rw [if_neg h1]
    exact ⟨by rw [if_neg h2], by rw [if_neg h2]⟩
  · intro m u s i env keys store
    rfl

/-- C10 witness: an unrecognised role string such as "nurse" is routed to
the patient table and patient key field. -/
theorem C10_role_normalisation_witness :
    roleTable (effectiveRole (some "nurse")) = "mediconnect-patients" ∧
    roleKeyField (effectiveRole (some "nurse")) = "patientId" :=
  C10_role_normalisation.2.2.1 "nurse" (by decide) (by decide)

/-- C2 counterexample: on a Textract failure the scan result's status is
"error" (no `EXTRACTION_FAILED` reason exists), and the handler does not
abort before record mutation — it issues the REJECTED_AUTO record update. -/
theorem C2_counterexample :
    (scan_diploma (.err "AccessDenied")).status ≠ "EXTRACTION_FAILED" ∧
    Action.ddbUpdateDiploma "mediconnect-doctors" "d1" false
        "s3://b/uploads/doctors/d1/f.jpg" "REJECTED_AUTO" ∈
      (diplomaHandler ⟨[("b", "uploads/doctors/d1/f.jpg")]⟩
        ⟨.err "AccessDenied", true, "", true, ""⟩ emptyStore).trace := by
  exact ⟨by decide, by decide⟩

/-- C2 (amended): a text-extraction failure is treated as an automatic fail
outcome — `status = "error"` carrying the exception message and
`verification_passed = false` — rather than an uncaught exception (the run
still completes with a 200 response); but the handler does not abort the
pipeline: it proceeds to issue the REJECTED_AUTO record-store update. -/
theorem C2_extraction_failure (msg bucket key : String)
    (rest : List (String × String)) (dbOk : Bool) (dbErr : String)
    (snsOk : Bool) (snsErr : String) (store : RecordStore) :
    scan_diploma (.err msg) =
      { status := "error", message := some msg, verification_passed := false
        confidence_matches := none, extracted_text_snippet := none } ∧
    (diplomaHandler ⟨(bucket, key) :: rest⟩ ⟨.err msg, dbOk, dbErr, snsOk, snsErr⟩
      store).response.statusCode = 200 ∧
    Action.ddbUpdateDiploma TABLE_NAME (extractDoctorId key) false
        ("s3://" ++ bucket ++ "/" ++ key) "REJECTED_AUTO" ∈
      (diplomaHandler ⟨(bucket, key) :: rest⟩ ⟨.err msg, dbOk, dbErr, snsOk, snsErr⟩
        store).trace := by
  refine ⟨rfl, ?_, ?_⟩ <;>
    · unfold diplomaHandler
      cases dbOk <;> simp [scan_diploma, DiplomaResponse.statusCode]

/-- C2 witness: a concrete extraction-failure run, with the amended theorem
applied at it. -/
theorem C2_extraction_failure_witness :
    (scan_diploma (.err "boom")).verification_passed = false ∧
    Action.ddbUpdateDiploma TABLE_NAME (extractDoctorId "uploads/doctors/d2/f.jpg")
        false "s3://b2/uploads/doctors/d2/f.jpg" "REJECTED_AUTO" ∈
      (diplomaHandler ⟨[("b2", "uploads/doctors/d2/f.jpg")]⟩
        ⟨.err "boom", false, "down", true, ""⟩ emptyStore).trace :=
  ⟨congrArg ScanResult.verification_passed
      (C2_extraction_failure "boom" "b2" "uploads/doctors/d2/f.jpg" [] false "down"
        true "" emptyStore).1,
    (C2_extraction_failure "boom" "b2" "uploads/doctors/d2/f.jpg" [] false "down"
      true "" emptyStore).2.2⟩

/-- C9: the reviewer notification is published exactly on the runs whose
diploma scan passed and whose record update completed without raising, and
then it is the last call, issued after that PENDING_REVIEW record update;
no notification happens on the fail branch or when the update raises. -/
theorem C9_notification_order (event : DiplomaEvent) (env : DiplomaEnv)
    (store : RecordStore) :
    ((∃ t m subj, Action.snsPublish t m subj ∈
        (diplomaHandler event env store).trace) ↔
      (event.records ≠ [] ∧
        (scan_diploma env.extraction).verification_passed = true ∧
        env.dbOk = true)) ∧
    (∀ t m subj, Action.snsPublish t m subj ∈ (diplomaHandler event env store).trace →
      ∃ bq did u, (diplomaHandler event env store).trace =
        [bq, Action.ddbUpdateDiploma TABLE_NAME did true u "PENDING_REVIEW",
          Action.snsPublish t m subj]) := by
  unfold diplomaHandler
  cases hrec : event.records with
  | nil =>
    constructor
    · simp
    · intro t m subj h
      simp at h
  | cons bk rest =>
    obtain ⟨b, k⟩ := bk
    cases hpass : (scan_diploma env.extraction).verification_passed <;>
      cases hdb : env.dbOk <;>
        simp [hpass, hdb]
    intro t m subj ht hm hs
    exact ⟨ht.symm, hm.symm, hs.symm⟩

/-- C9 witness: a concrete passing run with a successful update does carry a
notification in its trace. -/
theorem C9_notification_order_witness :
    ∃ t m subj, Action.snsPublish t m subj ∈
      (diplomaHandler ⟨[("b", "uploads/doctors/d1/f.jpg")]⟩
        ⟨.ok ["Diploma"], true, "", true, ""⟩ emptyStore).trace :=
  (C9_notification_order ⟨[("b", "uploads/doctors/d1/f.jpg")]⟩
      ⟨.ok ["Diploma"], true, "", true, ""⟩ emptyStore).1.mpr
    ⟨by decide, by decide, rfl⟩

/-- C1 counterexample: a doctor whose record already carries
OFFICER_APPROVED is regressed to the lower tier PENDING_REVIEW by an
automated run — a passing diploma rescan. -/
theorem C1_counterexample :
    (approvedStore "mediconnect-doctors" "d1").verificationStatus =
      some "OFFICER_APPROVED" ∧
    ((diplomaHandler ⟨[("bkt", "uploads/doctors/d1/diploma.jpg")]⟩
        ⟨.ok ["Doctor of Medicine Diploma"], true, "", true, ""⟩
        approvedStore).store "mediconnect-doctors" "d1").verificationStatus =
      some "PENDING_REVIEW" ∧
    recordTier (some "PENDING_REVIEW") <
      recordTier (approvedStore "mediconnect-doctors" "d1").verificationStatus := by
  exact ⟨rfl, by decide, by decide⟩

theorem applyIdentityUpdate_patients_tier (store : RecordStore)
    (user_role user_id avatar id : String) :
    recordTier ((store "mediconnect-patients" id).verificationStatus) ≤
      recordTier ((applyIdentityUpdate store (roleTable user_role) user_id avatar
          true (if user_role = "doctor" then "PENDING_REVIEW" else "VERIFIED")
        "mediconnect-patients" id).verificationStatus) := by
  unfold applyIdentityUpdate roleTable
  by_cases hdoc : user_role = "doctor"
  · rw [if_pos hdoc, if_neg]
    rintro ⟨h1, h2⟩
    exact absurd h1 (by decide)
  · rw [if_neg hdoc]
    by_cases hid : id = user_id
    · rw [if_pos ⟨rfl, hid⟩]
      simp only [if_neg hdoc]
      exact le_trans (recordTier_le_two _) (by decide)
    · rw [if_neg]
      rintro ⟨h1, h2⟩
      exact hid h2

theorem identityHandler_store_cases (req : IdRequest) (env : IdentityEnv)
    (keys : List String) (store : RecordStore) :
    (identityHandler req env keys store).store = store ∨
    (identityHandler req env keys store).store =
      applyIdentityUpdate store (roleTable (effectiveRole req.role))
        (req.userId.getD "")
        (effectiveRole req.role ++ "/" ++ req.userId.getD "" ++ "/selfie_verified.jpg")
        true
        (if effectiveRole req.role = "doctor" then "PENDING_REVIEW" else "VERIFIED") := by
  simp only [identityHandler, identityCompare]
  repeat' split
  all_goals first | (left; rfl) | (right; rfl)

theorem identityHandler_patients_tier (req : IdRequest) (env : IdentityEnv)
    (keys : List String) (store : RecordStore) (id : String) :
    recordTier ((store "mediconnect-patients" id).verificationStatus) ≤
      recordTier (((identityHandler req env keys store).store
        "mediconnect-patients" id).verificationStatus) := by
  rcases identityHandler_store_cases req env keys store with h | h
  · rw [h]
  · rw [h]
    exact applyIdentityUpdate_patients_tier store (effectiveRole req.role)
      (req.userId.getD "") _ id

theorem applyDiplomaUpdate_patients (store : RecordStore) (did : String)
    (v : Bool) (u s id : String) :
    applyDiplomaUpdate store TABLE_NAME did v u s "mediconnect-patients" id =
      store "mediconnect-patients" id := by
  unfold applyDiplomaUpdate TABLE_NAME
  rw [if_neg]
  rintro ⟨h1, h2⟩
  exact absurd h1 (by decide)

theorem diplomaHandler_store_cases (event : DiplomaEvent) (env : DiplomaEnv)
    (store : RecordStore) :
    (diplomaHandler event env store).store = store ∨
    ∃ did v u s, (diplomaHandler event env store).store =
      applyDiplomaUpdate store TABLE_NAME did v u s := by
  simp only [diplomaHandler]
  repeat' split
  all_goals first | (left; rfl) | (right; exact ⟨_, _, _, _, rfl⟩)

/-- C1 (amended): the pipeline's record updates write `verificationStatus`
unconditionally, with no guard on the current status.  A patient-table
record never moves to a lower tier under either handler (the diploma
handler never touches the patient table, and the identity handler only ever
writes the top-tier VERIFIED status there); but every status a diploma run
writes is PENDING_REVIEW or REJECTED_AUTO, so a doctor already at
OFFICER_APPROVED or VERIFIED is regressed by a diploma rescan (and a
successful doctor identity match likewise rewrites PENDING_REVIEW). -/
theorem C1_amended_monotonicity (event : DiplomaEvent) (denv : DiplomaEnv)
    (dstore : RecordStore) (req : IdRequest) (ienv : IdentityEnv)
    (keys : List String) (istore : RecordStore) :
    (∀ id, recordTier ((dstore "mediconnect-patients" id).verificationStatus) ≤
      recordTier (((diplomaHandler event denv dstore).store
        "mediconnect-patients" id).verificationStatus)) ∧
    (∀ id, recordTier ((istore "mediconnect-patients" id).verificationStatus) ≤
      recordTier (((identityHandler req ienv keys istore).store
        "mediconnect-patients" id).verificationStatus)) ∧
    (∀ tbl did v u s,
      Action.ddbUpdateDiploma tbl did v u s ∈ (diplomaHandler event denv dstore).trace →
        s = "PENDING_REVIEW" ∨ s = "REJECTED_AUTO") := by
  refine ⟨?_, fun id => identityHandler_patients_tier req ienv keys istore id, ?_⟩
  · intro id
    rcases diplomaHandler_store_cases event denv dstore with h | ⟨did, v, u, s, h⟩
    · rw [h]
    · rw [h, applyDiplomaUpdate_patients]
  · intro tbl did v u s
    unfold diplomaHandler
    cases event.records with
    | nil => intro h; simp at h
    | cons bk rest =>
      obtain ⟨b, k⟩ := bk
      cases hpass : (scan_diploma denv.extraction).verification_passed <;>
        cases hdb : denv.dbOk <;>
          simp [hpass, hdb] <;> tauto

theorem identityHandler_run_noId (m uid : String) (role : Option String)
    (s bytes : String) (idi : Option String) (env : IdentityEnv)
    (keys : List String) (store : RecordStore)
    (hm : m ≠ "OPTIONS") (hu0 : uid ≠ "") (hb : env.b64 s = some bytes)
    (hidi : idi.getD "" = "") :
    identityHandler ⟨m, some uid, role, some s, idi⟩ env keys store =
      identityCompare env (effectiveRole role) uid bytes [] keys store := by
  unfold identityHandler
  dsimp only
  rw [if_neg hm, if_neg (show ¬((some uid : Option String).getD "" = "") from hu0), hb]
  dsimp only
  rw [if_neg (show ¬(idi.getD "" ≠ "") from fun h => h hidi)]
  rfl

theorem identityHandler_run_withId (m uid : String) (role : Option String)
    (s bytes : String) (idi : Option String) (i ib : String) (env : IdentityEnv)
    (keys : List String) (store : RecordStore)
    (hm : m ≠ "OPTIONS") (hu0 : uid ≠ "") (hb : env.b64 s = some bytes)
    (hidi : idi.getD "" = i) (hi0 : i ≠ "") (hib : env.b64 i = some ib)
    (hs3 : env.s3IdPutOk = true) :
    identityHandler ⟨m, some uid, role, some s, idi⟩ env keys store =
      identityCompare env (effectiveRole role) uid bytes
        [Action.s3Put BUCKET_NAME
            (effectiveRole role ++ "/" ++ uid ++ "/id_card.jpg") ib,
          Action.s3Tag BUCKET_NAME
            (effectiveRole role ++ "/" ++ uid ++ "/id_card.jpg")]
        ((effectiveRole role ++ "/" ++ uid ++ "/id_card.jpg") :: keys) store := by
  unfold identityHandler
  dsimp only
  rw [if_neg hm, if_neg (show ¬((some uid : Option String).getD "" = "") from hu0), hb]
  dsimp only
  rw [hidi, if_pos hi0, hib]
  dsimp only
  rw [if_pos hs3]
  rfl

theorem identityCompare_noRef (env : IdentityEnv) (role uid bytes : String)
    (pre : List Action) (keys : List String) (store : RecordStore)
    (href : role ++ "/" ++ uid ++ "/id_card.jpg" ∉ keys) :
    identityCompare env role uid bytes pre keys store =
      { response := .err 404 "ID Document missing. Please ensure ID is uploaded."
        trace := pre ++
          [Action.rekognitionCompare BUCKET_NAME (role ++ "/" ++ uid ++ "/id_card.jpg")]
        s3Keys := keys, store := store } := by
  unfold identityCompare
  rw [if_neg href]

theorem identityCompare_nonmatch (env : IdentityEnv) (role uid bytes : String)
    (pre : List Action) (keys : List String) (store : RecordStore)
    (href : role ++ "/" ++ uid ++ "/id_card.jpg" ∈ keys)
    (hfault : env.rekogFault = none)
    (hfm : env.sims.filter (fun x => (80 : ℚ) ≤ x) = []) :
    identityCompare env role uid bytes pre keys store =
      { response := .success
          ⟨false, 0, "Face does not match the provided ID card.", none⟩
        trace := pre ++
          [Action.rekognitionCompare BUCKET_NAME (role ++ "/" ++ uid ++ "/id_card.jpg")]
        s3Keys := keys, store := store } := by
  unfold identityCompare
  rw [if_pos href, hfault, hfm]

theorem identityCompare_match (env : IdentityEnv) (role uid bytes : String)
    (pre : List Action) (keys : List String) (store : RecordStore)
    (c : ℚ) (cs : List ℚ)
    (href : role ++ "/" ++ uid ++ "/id_card.jpg" ∈ keys)
    (hfault : env.rekogFault = none)
    (hfm : env.sims.filter (fun x => (80 : ℚ) ≤ x) = c :: cs)
    (hput : env.s3SelfiePutOk = true) :
    identityCompare env role uid bytes pre keys store =
      { response := .success ⟨true, c, verifiedMessage c,
          some (presignURL BUCKET_NAME (role ++ "/" ++ uid ++ "/selfie_verified.jpg") 3600)⟩
        trace := pre ++
          [Action.rekognitionCompare BUCKET_NAME (role ++ "/" ++ uid ++ "/id_card.jpg"),
            Action.s3Put BUCKET_NAME (role ++ "/" ++ uid ++ "/selfie_verified.jpg") bytes,
            Action.s3Presign BUCKET_NAME (role ++ "/" ++ uid ++ "/selfie_verified.jpg") 3600,
            Action.ddbUpdateIdentity (roleTable role) (roleKeyField role) uid
              (role ++ "/" ++ uid ++ "/selfie_verified.jpg") true
              (if role = "doctor" then "PENDING_REVIEW" else "VERIFIED")]
        s3Keys := (role ++ "/" ++ uid ++ "/selfie_verified.jpg") :: keys
        store := if env.dbOk
          then applyIdentityUpdate store (roleTable role) uid
            (role ++ "/" ++ uid ++ "/selfie_verified.jpg") true
            (if role = "doctor" then "PENDING_REVIEW" else "VERIFIED")
          else store } := by
  unfold identityCompare
  dsimp only
  rw [if_pos href, hfault]
  dsimp only
  rw [hfm]
  dsimp only
  rw [if_pos hput]

theorem exists_sim_iff (l : List ℚ) :
    (∃ sim ∈ l, (80 : ℚ) ≤ sim) ↔ l.filter (fun x => (80 : ℚ) ≤ x) ≠ [] := by
  constructor
  · rintro ⟨sim, hmem, hle⟩ hnil
    have h : sim ∈ l.filter (fun x => (80 : ℚ) ≤ x) :=
      List.mem_filter.mpr ⟨hmem, by simpa using hle⟩
    rw [hnil] at h
    simp at h
  · intro h
    cases hf : l.filter (fun x => (80 : ℚ) ≤ x) with
    | nil => exact absurd hf h
    | cons a as =>
      have ha : a ∈ l.filter (fun x => (80 : ℚ) ≤ x) := by
        rw [hf]; exact List.mem_cons_self a as
      rw [List.mem_filter] at ha
      exact ⟨a, ha.1, by simpa using ha.2⟩

/-- C4: with the reference image present in the store and the comparison
service responsive, the handler declares verified=true exactly when the
threshold-80 comparison returns at least one face pair (equivalently, some
pair has similarity ≥ 80); when zero pairs are returned the run yields a
structured matched=false response with the descriptive non-match reason,
confidence 0 and photoUrl null — not an error — and neither the record
store nor anything else is touched beyond the comparison call itself. -/
theorem C4_biometric_match (m uid : String) (role : Option String)
    (s bytes : String) (idi : Option String) (env : IdentityEnv)
    (keys : List String) (store : RecordStore)
    (hm : m ≠ "OPTIONS") (hu0 : uid ≠ "") (hb : env.b64 s = some bytes)
    (hidi : idi.getD "" = "")
    (href : effectiveRole role ++ "/" ++ uid ++ "/id_card.jpg" ∈ keys)
    (hfault : env.rekogFault = none) (hput : env.s3SelfiePutOk = true) :
    (∃ body, (identityHandler ⟨m, some uid, role, some s, idi⟩ env keys store).response =
        .success body ∧
      (body.verified = true ↔ ∃ sim ∈ env.sims, (80 : ℚ) ≤ sim)) ∧
    (env.sims.filter (fun x => (80 : ℚ) ≤ x) = [] →
      identityHandler ⟨m, some uid, role, some s, idi⟩ env keys store =
        { response := .success
            ⟨false, 0, "Face does not match the provided ID card.", none⟩
          trace := [Action.rekognitionCompare BUCKET_NAME
            (effectiveRole role ++ "/" ++ uid ++ "/id_card.jpg")]
          s3Keys := keys, store := store }) := by
  have hrun := identityHandler_run_noId m uid role s bytes idi env keys store hm hu0 hb hidi
  constructor
  · cases hfm : env.sims.filter (fun x => (80 : ℚ) ≤ x) with
    | nil =>
      rw [hrun, identityCompare_nonmatch env (effectiveRole role) uid bytes [] keys
        store href hfault hfm]
      refine ⟨_, rfl, ?_⟩
      simp only [Bool.false_eq_true, false_iff]
      rw [exists_sim_iff, hfm]
      simp
    | cons c cs =>
      rw [hrun, identityCompare_match env (effectiveRole role) uid bytes [] keys
        store c cs href hfault hfm hput]
      refine ⟨_, rfl, ?_⟩
      simp only [true_iff]
      rw [exists_sim_iff, hfm]
      simp
  · intro hfm
    rw [hrun, identityCompare_nonmatch env (effectiveRole role) uid bytes [] keys
      store href hfault hfm]
    rfl

/-- C4 witness: a zero-face-pair comparison on a concrete request. -/
theorem C4_biometric_match_witness :
    identityHandler ⟨"POST", some "u1", some "patient", some "sb", none⟩
        ⟨fun x => some x, true, [], none, true, true, ""⟩
        ["patient/u1/id_card.jpg"] emptyStore =
      { response := .success
          ⟨false, 0, "Face does not match the provided ID card.", none⟩
        trace := [Action.rekognitionCompare BUCKET_NAME "patient/u1/id_card.jpg"]
        s3Keys := ["patient/u1/id_card.jpg"], store := emptyStore } :=
  (C4_biometric_match "POST" "u1" (some "patient") "sb" "sb" none
      ⟨fun x => some x, true, [], none, true, true, ""⟩
      ["patient/u1/id_card.jpg"] emptyStore (by decide) (by decide) rfl rfl
      (by decide) rfl rfl).2 rfl

/-- C5: on a successful comparison, the issued record update stores the
persisted selfie's storage key — never a pre-signed URL — as the avatar
reference, with verificationStatus PENDING_REVIEW for the doctor role and
VERIFIED otherwise, while the short-lived presigned URL appears (non-null)
only in the synchronous response payload. -/
theorem C5_success_persistence (m uid : String) (role : Option String)
    (s bytes : String) (idi : Option String) (env : IdentityEnv)
    (keys : List String) (store : RecordStore) (c : ℚ) (cs : List ℚ)
    (hm : m ≠ "OPTIONS") (hu0 : uid ≠ "") (hb : env.b64 s = some bytes)
    (hidi : idi.getD "" = "")
    (href : effectiveRole role ++ "/" ++ uid ++ "/id_card.jpg" ∈ keys)
    (hfault : env.rekogFault = none)
    (hfm : env.sims.filter (fun x => (80 : ℚ) ≤ x) = c :: cs)
    (hput : env.s3SelfiePutOk = true) :
    Action.ddbUpdateIdentity (roleTable (effectiveRole role))
        (roleKeyField (effectiveRole role)) uid
        (effectiveRole role ++ "/" ++ uid ++ "/selfie_verified.jpg") true
        (if effectiveRole role = "doctor" then "PENDING_REVIEW" else "VERIFIED") ∈
      (identityHandler ⟨m, some uid, role, some s, idi⟩ env keys store).trace ∧
    (env.dbOk = true →
      ((identityHandler ⟨m, some uid, role, some s, idi⟩ env keys store).store
          (roleTable (effectiveRole role)) uid).avatar =
        some (effectiveRole role ++ "/" ++ uid ++ "/selfie_verified.jpg") ∧
      ((identityHandler ⟨m, some uid, role, some s, idi⟩ env keys store).store
          (roleTable (effectiveRole role)) uid).verificationStatus =
        some (if effectiveRole role = "doctor" then "PENDING_REVIEW" else "VERIFIED")) ∧
    (identityHandler ⟨m, some uid, role, some s, idi⟩ env keys store).response =
      .success ⟨true, c, verifiedMessage c,
        some (presignURL BUCKET_NAME
          (effectiveRole role ++ "/" ++ uid ++ "/selfie_verified.jpg") 3600)⟩ ∧
    presignURL BUCKET_NAME
        (effectiveRole role ++ "/" ++ uid ++ "/selfie_verified.jpg") 3600 ≠
      effectiveRole role ++ "/" ++ uid ++ "/selfie_verified.jpg" := by
  have hrun := identityHandler_run_noId m uid role s bytes idi env keys store hm hu0 hb hidi
  rw [hrun, identityCompare_match env (effectiveRole role) uid bytes [] keys store
    c cs href hfault hfm hput]
  refine ⟨by simp, ?_, rfl, presignURL_ne_key _ _ _⟩
  intro hdb
  show ((if env.dbOk then _ else store) _ _).avatar = _ ∧
    ((if env.dbOk then _ else store) _ _).verificationStatus = _
  rw [if_pos hdb]
  unfold applyIdentityUpdate
  rw [if_pos ⟨rfl, rfl⟩]
  exact ⟨rfl, rfl⟩

/-- C5 witness: a concrete doctor-role (sent as 'provider') success run with
similarity 90 issues the update carrying the selfie key and
PENDING_REVIEW. -/
theorem C5_success_persistence_witness :
    Action.ddbUpdateIdentity "mediconnect-doctors" "doctorId" "d7"
        "doctor/d7/selfie_verified.jpg" true "PENDING_REVIEW" ∈
      (identityHandler ⟨"POST", some "d7", some "provider", some "sb", none⟩
        ⟨fun x => some x, true, [(90 : ℚ)], none, true, true, ""⟩
        ["doctor/d7/id_card.jpg"] emptyStore).trace :=
  (C5_success_persistence "POST" "d7" (some "provider") "sb" "sb" none
      ⟨fun x => some x, true, [(90 : ℚ)], none, true, true, ""⟩
      ["doctor/d7/id_card.jpg"] emptyStore (90 : ℚ) []
      (by decide) (by decide) rfl rfl (by decide) rfl (by decide) rfl).1

/-- C6: a request carrying no ID image when none exists in the image store
yields the distinct 404 missing-reference error, with no record-store
mutation (and no call at all beyond the comparison attempt). -/
theorem C6_missing_reference (m uid : String) (role : Option String)
    (s bytes : String) (idi : Option String) (env : IdentityEnv)
    (keys : List String) (store : RecordStore)
    (hm : m ≠ "OPTIONS") (hu0 : uid ≠ "") (hb : env.b64 s = some bytes)
    (hidi : idi.getD "" = "")
    (href : effectiveRole role ++ "/" ++ uid ++ "/id_card.jpg" ∉ keys) :
    identityHandler ⟨m, some uid, role, some s, idi⟩ env keys store =
      { response := .err 404 "ID Document missing. Please ensure ID is uploaded."
        trace := [Action.rekognitionCompare BUCKET_NAME
          (effectiveRole role ++ "/" ++ uid ++ "/id_card.jpg")]
        s3Keys := keys, store := store } := by
  rw [identityHandler_run_noId m uid role s bytes idi env keys store hm hu0 hb hidi,
    identityCompare_noRef env (effectiveRole role) uid bytes [] keys store href]
  rfl

/-- C6 witness: a concrete run with no ID image and an empty store. -/
theorem C6_missing_reference_witness :
    identityHandler ⟨"POST", some "u2", some "patient", some "sb", none⟩
        ⟨fun x => some x, true, [], none, true, true, ""⟩ [] emptyStore =
      { response := .err 404 "ID Document missing. Please ensure ID is uploaded."
        trace := [Action.rekognitionCompare BUCKET_NAME "patient/u2/id_card.jpg"]
        s3Keys := [], store := emptyStore } :=
  C6_missing_reference "POST" "u2" (some "patient") "sb" "sb" none
    ⟨fun x => some x, true, [], none, true, true, ""⟩ [] emptyStore
    (by decide) (by decide) rfl rfl (by simp)

/-- C7 counterexample: a request missing the role field entirely is not
rejected with a 400 client error — it proceeds (the role silently defaults
to patient) all the way to the external comparison call, here surfacing a
404 missing-reference error with a non-empty external call trace. -/
theorem C7_counterexample :
    (identityHandler ⟨"POST", some "u1", none, some "c2VsZmll", none⟩
        ⟨fun x => some x, true, [], none, true, true, ""⟩ [] emptyStore).response =
      .err 404 "ID Document missing. Please ensure ID is uploaded." ∧
    (identityHandler ⟨"POST", some "u1", none, some "c2VsZmll", none⟩
        ⟨fun x => some x, true, [], none, true, true, ""⟩ []
      emptyStore).response.statusCode ≠ 400 ∧
    (identityHandler ⟨"POST", some "u1", none, some "c2VsZmll", none⟩
        ⟨fun x => some x, true, [], none, true, true, ""⟩ [] emptyStore).trace ≠ [] := by
  refine ⟨rfl, by decide, by decide⟩

/-- C7 (amended): a request missing userId or selfieImage, or carrying a
selfie whose base64 decoding fails, is rejected synchronously with a 400
client-error result before any external call (empty call trace, stores
untouched); a missing role is NOT rejected — it is defaulted to patient. -/
theorem C7_amended_validation (req : IdRequest) (env : IdentityEnv)
    (keys : List String) (store : RecordStore) (hm : req.httpMethod ≠ "OPTIONS") :
    (req.userId.getD "" = "" →
      identityHandler req env keys store =
        { response := .err 400 "Missing userId", trace := [], s3Keys := keys
          store := store }) ∧
    (req.selfieImage = none → req.userId.getD "" ≠ "" →
      identityHandler req env keys store =
        { response := .err 400 "No selfieImage provided", trace := [], s3Keys := keys
          store := store }) ∧
    (∀ s, req.selfieImage = some s → env.b64 s = none → req.userId.getD "" ≠ "" →
      identityHandler req env keys store =
        { response := .err 400 "Invalid Selfie Base64", trace := [], s3Keys := keys
          store := store }) := by
  refine ⟨?_, ?_, ?_⟩
  · intro hu
    unfold identityHandler
    rw [if_neg hm, if_pos hu]
  · intro hs hu
    unfold identityHandler
    rw [if_neg hm, if_neg hu, hs]
  · intro s hs hb hu
    unfold identityHandler
    rw [if_neg hm, if_neg hu, hs]
    dsimp only
    rw [hb]

/-- C7 (amended) witness: a concrete request with no userId is rejected 400
with an empty call trace. -/
theorem C7_amended_validation_witness :
    identityHandler ⟨"POST", none, some "patient", some "sb", none⟩
        ⟨fun x => some x, true, [], none, true, true, ""⟩ [] emptyStore =
      { response := .err 400 "Missing userId", trace := [], s3Keys := []
        store := emptyStore } :=
  (C7_amended_validation ⟨"POST", none, some "patient", some "sb", none⟩
      ⟨fun x => some x, true, [], none, true, true, ""⟩ [] emptyStore
      (by decide)).1 rfl

/-- C8 counterexample: for the identity handler, a run whose record-store
update raises returns a response identical to the run where it succeeds — a
200 carrying the decision but with NO separate diagnostic field surfacing
the persistence failure (it is only logged). -/
theorem C8_counterexample :
    (identityHandler ⟨"POST", some "u1", some "patient", some "sb", none⟩
        ⟨fun x => some x, true, [(90 : ℚ)], none, true, false,
          "ProvisionedThroughputExceeded"⟩
        ["patient/u1/id_card.jpg"] emptyStore).response =
      (identityHandler ⟨"POST", some "u1", some "patient", some "sb", none⟩
        ⟨fun x => some x, true, [(90 : ℚ)], none, true, true, ""⟩
        ["patient/u1/id_card.jpg"] emptyStore).response ∧
    (identityHandler ⟨"POST", some "u1", some "patient", some "sb", none⟩
        ⟨fun x => some x, true, [(90 : ℚ)], none, true, false,
          "ProvisionedThroughputExceeded"⟩
        ["patient/u1/id_card.jpg"] emptyStore).response.statusCode = 200 :=
  ⟨rfl, rfl⟩

/-- C8 (amended): when the record-store update fails after a decision was
computed, both handlers still return the decision in a structured 200
response; the document handler surfaces the persistence failure in its
db_status response field, while the identity handler's response is
completely unchanged by the failure (no diagnostic field; logged only). -/
theorem C8_persistence_failure (b k : String) (rest : List (String × String))
    (denv : DiplomaEnv) (dstore : RecordStore) (hdb : denv.dbOk = false)
    (m uid : String) (role : Option String) (s bytes : String)
    (idi : Option String) (ienv : IdentityEnv) (keys : List String)
    (istore : RecordStore) (c : ℚ) (cs : List ℚ)
    (hm : m ≠ "OPTIONS") (hu0 : uid ≠ "") (hb : ienv.b64 s = some bytes)
    (hidi : idi.getD "" = "")
    (href : effectiveRole role ++ "/" ++ uid ++ "/id_card.jpg" ∈ keys)
    (hfault : ienv.rekogFault = none)
    (hfm : ienv.sims.filter (fun x => (80 : ℚ) ≤ x) = c :: cs)
    (hput : ienv.s3SelfiePutOk = true) (_hidb : ienv.dbOk = false) :
    (diplomaHandler ⟨(b, k) :: rest⟩ denv dstore).response =
      .processed ⟨"Processed", extractDoctorId k,
        (scan_diploma denv.extraction).verification_passed,
        "DynamoDB Update Failed: " ++ denv.dbErr⟩ ∧
    (diplomaHandler ⟨(b, k) :: rest⟩ denv dstore).response.statusCode = 200 ∧
    (identityHandler ⟨m, some uid, role, some s, idi⟩ ienv keys istore).response =
      .success ⟨true, c, verifiedMessage c,
        some (presignURL BUCKET_NAME
          (effectiveRole role ++ "/" ++ uid ++ "/selfie_verified.jpg") 3600)⟩ ∧
    (identityHandler ⟨m, some uid, role, some s, idi⟩ ienv keys istore).response =
      (identityHandler ⟨m, some uid, role, some s, idi⟩
        { ienv with dbOk := true, dbErr := "" } keys istore).response := by
  have hdip : (diplomaHandler ⟨(b, k) :: rest⟩ denv dstore).response =
      .processed ⟨"Processed", extractDoctorId k,
        (scan_diploma denv.extraction).verification_passed,
        "DynamoDB Update Failed: " ++ denv.dbErr⟩ := by
    unfold diplomaHandler
    cases hpass : (scan_diploma denv.extraction).verification_passed <;>
      simp [hpass, hdb]
  have hrun := identityHandler_run_noId m uid role s bytes idi ienv keys istore
    hm hu0 hb hidi
  have hrun' := identityHandler_run_noId m uid role s bytes idi
    { ienv with dbOk := true, dbErr := "" } keys istore hm hu0 hb hidi
  refine ⟨hdip, by rw [hdip]; rfl, ?_, ?_⟩
  · rw [hrun, identityCompare_match ienv (effectiveRole role) uid bytes [] keys
      istore c cs href hfault hfm hput]
  · rw [hrun, identityCompare_match ienv (effectiveRole role) uid bytes [] keys
      istore c cs href hfault hfm hput,
      hrun', identityCompare_match { ienv with dbOk := true, dbErr := "" }
      (effectiveRole role) uid bytes [] keys istore c cs href hfault hfm hput]

/-- C8 (amended) witness: the amended persistence-failure behaviour at
concrete failing runs of both handlers. -/
theorem C8_persistence_failure_witness :
    (diplomaHandler ⟨[("b3", "uploads/doctors/d3/f.jpg")]⟩
        ⟨.ok ["Diploma"], false, "timeout", true, ""⟩ emptyStore).response =
      .processed ⟨"Processed", "d3", true, "DynamoDB Update Failed: timeout"⟩ :=
  (C8_persistence_failure "b3" "uploads/doctors/d3/f.jpg" []
      ⟨.ok ["Diploma"], false, "timeout", true, ""⟩ emptyStore rfl
      "POST" "u1" (some "patient") "sb" "sb" none
      ⟨fun x => some x, true, [(90 : ℚ)], none, true, false, "boom"⟩
      ["patient/u1/id_card.jpg"] emptyStore (90 : ℚ) []
      (by decide) (by decide) rfl rfl (by decide) rfl (by decide) rfl rfl).1

/-- C1 (amended) witness: the patient-tier bound applied at a concrete
patient record and concrete runs of both handlers. -/
theorem C1_amended_monotonicity_witness :
    recordTier ((approvedStore "mediconnect-patients" "p1").verificationStatus) ≤
      recordTier (((diplomaHandler ⟨[("b", "uploads/doctors/d1/f.jpg")]⟩
        ⟨.ok ["Diploma"], true, "", true, ""⟩ approvedStore).store
        "mediconnect-patients" "p1").verificationStatus) :=
  (C1_amended_monotonicity ⟨[("b", "uploads/doctors/d1/f.jpg")]⟩
      ⟨.ok ["Diploma"], true, "", true, ""⟩ approvedStore
      ⟨"POST", some "u1", none, some "s", none⟩
      ⟨fun x => some x, true, [], none, true, true, ""⟩ [] approvedStore).1 "p1"

end Mediconnect
